import Mathlib

/-!
Verification of the Ralph task-execution and recovery engine against its
natural-language specification.  The Python sources under `cli/ralph` and
`scripts` are shallowly embedded below; modules of the repository that are
imported by `implement.py` but whose sources are not available
(`errors.py`, `executor.py`, `recovery.py`) are modelled from the
specification, as marked in their doc comments.
-/

/-- Modelled from the spec: the closed ErrorKind enumeration (§3 DATA MODEL);
the source module `errors.py` is imported by `implement.py` but is not in
the available sources. -/
inductive ErrorType
  | success
  | on_hold
  | auth_error
  | rate_limited
  | overloaded
  | context_overflow
  | timeout
  | process_error
  | unknown
  deriving DecidableEq, Repr

/-- Modelled from the spec: `is_success` is true only for `Success`. -/
def ErrorType.is_success : ErrorType → Bool
  | .success => true
  | _ => false

/-- Modelled from the spec: `is_fatal` is true for `AuthError` — a fatal kind
halts the whole pipeline. -/
def ErrorType.is_fatal : ErrorType → Bool
  | .auth_error => true
  | _ => false

/-- Modelled from the spec: the human-readable value string of each kind
(`errors.py` is not in the available sources; the strings follow the
naming visible in `notify.py`, e.g. `API_TIMEOUT`). -/
def ErrorType.value : ErrorType → String
  | .success => "SUCCESS"
  | .on_hold => "ON_HOLD"
  | .auth_error => "AUTH_ERROR"
  | .rate_limited => "RATE_LIMITED"
  | .overloaded => "OVERLOADED"
  | .context_overflow => "CONTEXT_OVERFLOW"
  | .timeout => "API_TIMEOUT"
  | .process_error => "PROCESS_ERROR"
  | .unknown => "UNKNOWN"

/-- Modelled from the spec: the Outcome record produced once per attempt
(§3 DATA MODEL); the source module `executor.py` (class `TaskResult`) is
not in the available sources. -/
structure TaskResult where
  error_type : ErrorType
  message : String
  session_id : Option String
  duration_seconds : Nat
  cost_usd : Rat
  deriving DecidableEq, Repr

/-- Configuration record, from the dataclass in `config.py` (defaults as in
the source: recovery enabled, delays 600/1200/1800, two overflow retries). -/
structure Config where
  telegram_bot_token : Option String
  telegram_chat_id : Option String
  recovery_enabled : Bool
  recovery_delays : List Nat
  context_overflow_max_retries : Nat
  deriving DecidableEq, Repr

/-- The default `Config()` value of `config.py`. -/
def defaultConfig : Config :=
  { telegram_bot_token := none
    telegram_chat_id := none
    recovery_enabled := true
    recovery_delays := [600, 1200, 1800]
    context_overflow_max_retries := 2 }

/-- Modelled from the spec: the guard of transition rule 2 (§4.4) —
`ContextOverflow` with the retry budget not yet exhausted; `recovery.py`
(`should_retry_fresh`) is not in the available sources. -/
def should_retry_fresh (et : ErrorType) (attempts : Nat) (cfg : Config) : Bool :=
  decide (et = ErrorType.context_overflow ∧ attempts < cfg.context_overflow_max_retries)

/-- Modelled from the spec: the transient API-failure kinds of transition
rule 3 (§4.4). -/
def transientKind (et : ErrorType) : Bool :=
  decide (et = ErrorType.rate_limited ∨ et = ErrorType.overloaded ∨
    et = ErrorType.timeout ∨ et = ErrorType.process_error)

/-- Modelled from the spec: the guard of transition rule 3 (§4.4) — a
transient kind with recovery enabled; `recovery.py` (`should_recover`) is
not in the available sources. -/
def should_recover (et : ErrorType) (cfg : Config) : Bool :=
  cfg.recovery_enabled && transientKind et

/-- Modelled from the spec: the backoff loop body (§4.4 rule 3) — for each
configured delay in order, notify and wait, then re-check viability with
the health probe; healthy means recovered, exhausting every delay means
not recovered.  The probe is an oracle indexed by the number of probes
made so far; the pair returned is (recovered, probes consumed so far). -/
def recovery_loop_go (probe : Nat → Bool) : List Nat → Nat → Bool × Nat
  | [], k => (false, k)
  | _ :: rest, k => if probe k then (true, k + 1) else recovery_loop_go probe rest (k + 1)

/-- Modelled from the spec: `recovery_loop` walks the configured delays in
order (`recovery.py` is not in the available sources). -/
def recovery_loop (cfg : Config) (probe : Nat → Bool) (k : Nat) : Bool × Nat :=
  recovery_loop_go probe cfg.recovery_delays k

/-- The recovery note built on a context-overflow retry
(`implement.py` lines 208-212). -/
def overflowNote (retry maxRetries : Nat) : String :=
  "Previous attempt failed with context overflow. This is retry " ++
    toString retry ++ "/" ++ toString maxRetries ++ ". Focus on essential changes only."

/-- The recovery note built after a successful backoff recovery
(`implement.py` lines 238-241). -/
def resumeNote (errValue : String) : String :=
  "Previous attempt was interrupted by " ++ errValue ++
    ". This is a recovery resume. Continue where you left off."

/-- The arguments of one `run_claude` invocation that the recovery state
machine controls: the session to resume (if any) and the recovery note
passed into the prompt (`implement.py` lines 180-192). -/
structure Invocation where
  resume_session : Option String
  recovery_note : Option String
  deriving DecidableEq, Repr

/-- A non-terminal transition of the recovery state machine (§4.4). -/
inductive Transition
  | retryFresh
  | retryAfterBackoff
  deriving DecidableEq, Repr

/-- The per-task attempt state of `execute_task_with_recovery`
(`implement.py` lines 172-175). -/
structure ExecState where
  context_overflow_attempts : Nat
  resume_session : Option String
  recovery_note : Option String
  deriving DecidableEq, Repr

/-- The initial attempt state of each task (`implement.py` lines 173-175). -/
def initExecState : ExecState := ⟨0, none, none⟩

/-- The observable result of running one task to a terminal outcome: the
terminal `TaskResult`, the in-order list of invocations made (with the
resume session and recovery note each was given), and the in-order list
of non-terminal transitions taken. -/
structure ExecResult where
  outcome : TaskResult
  invocations : List Invocation
  transitions : List Transition
  deriving DecidableEq, Repr

/-- Embedding of `execute_task_with_recovery` (`implement.py` lines 162-249): the while
loop, with each successive `run_claude` outcome supplied by the script
list (`none` when the script is exhausted before the loop terminates).
The console/log/notifier side effects are elided except for the data the
claims track: the invocation arguments and the transitions. -/
def execute_task_with_recovery (cfg : Config) (probe : Nat → Bool) :
    List TaskResult → ExecState → Nat → Option ExecResult
  | [], _, _ => none
  | r :: rest, st, k =>
    let inv : Invocation := ⟨st.resume_session, st.recovery_note⟩
    if r.error_type.is_success = true ∨ r.error_type = ErrorType.on_hold then
      some ⟨r, [inv], []⟩
    else if should_retry_fresh r.error_type st.context_overflow_attempts cfg = true then
      let a := st.context_overflow_attempts + 1
      (execute_task_with_recovery cfg probe rest
          ⟨a, none, some (overflowNote a cfg.context_overflow_max_retries)⟩ k).map
        (fun er => ⟨er.outcome, inv :: er.invocations, Transition.retryFresh :: er.transitions⟩)
    else if should_recover r.error_type cfg = true then
      let rl := recovery_loop cfg probe k
      if rl.1 = true then
        (execute_task_with_recovery cfg probe rest
            ⟨st.context_overflow_attempts, r.session_id,
              some (resumeNote r.error_type.value)⟩ rl.2).map
          (fun er => ⟨er.outcome, inv :: er.invocations,
            Transition.retryAfterBackoff :: er.transitions⟩)
      else some ⟨r, [inv], []⟩
    else some ⟨r, [inv], []⟩

/-- The structured events `run_implement` forwards to the Telegram notifier
(`notify.py`; the pipeline-level calls are in `implement.py`). -/
inductive NotifyEvent
  | session_start
  | task_failed (task : String) (reason : String)
  | pipeline_stopped (reason : String)
  | session_complete
  deriving DecidableEq, Repr

/-- The observable per-task actions of the pipeline loop: the working-tree
cleanup and the agent invocation performed for a task
(`implement.py` lines 90-103). -/
inductive PipeEvent
  | cleanup (task : Nat)
  | invoke (task : Nat)
  deriving DecidableEq, Repr

/-- The accumulated state of `run_implement`'s task loop
(`implement.py` lines 74-78), together with the configuration it reads,
the per-task actions performed and the notifications sent (paired with
the boolean result each send returned). -/
structure PipeState where
  cfg : Config
  completed : List Nat
  failed : List Nat
  failed_reasons : List String
  pipeline_stopped : Bool
  events : List PipeEvent
  sent : List (NotifyEvent × Bool)
  deriving DecidableEq, Repr

/-- The task reference string `f"{project}#{task_num}"`
(`implement.py` line 85). -/
def taskRef (project : String) (t : Nat) : String :=
  project ++ "#" ++ toString t

/-- The body of one iteration of `run_implement`'s task loop
(`implement.py` lines 85-130): clean the working tree, run the task
through recovery to a terminal result, then classify it into completed /
on-hold / fatal / failed; a fatal result records the failure, sets the
stop flag and notifies `pipeline_stopped`.  `res` abstracts the terminal
`TaskResult` that `execute_task_with_recovery` yields for a task under a
given configuration; `notify` is the notifier oracle (the boolean each
send returns). -/
def taskStep (project : String) (res : Config → Nat → TaskResult)
    (notify : NotifyEvent → Bool) (t : Nat) (st : PipeState) : PipeState :=
  let r := res st.cfg t
  let st1 : PipeState :=
    { st with events := st.events ++ [PipeEvent.cleanup t, PipeEvent.invoke t] }
  if r.error_type.is_success = true then
    { st1 with completed := st1.completed ++ [t] }
  else if r.error_type = ErrorType.on_hold then
    st1
  else if r.error_type.is_fatal = true then
    { st1 with
      failed := st1.failed ++ [t]
      failed_reasons := st1.failed_reasons ++ [r.error_type.value]
      pipeline_stopped := true
      sent := st1.sent ++
        [(NotifyEvent.pipeline_stopped r.error_type.value,
          notify (NotifyEvent.pipeline_stopped r.error_type.value))] }
  else
    { st1 with
      failed := st1.failed ++ [t]
      failed_reasons := st1.failed_reasons ++ [r.error_type.value]
      sent := st1.sent ++
        [(NotifyEvent.task_failed (taskRef project t) r.error_type.value,
          notify (NotifyEvent.task_failed (taskRef project t) r.error_type.value))] }

/-- The per-task loop of `run_implement` (`implement.py` lines 81-131):
break when the pipeline is stopped, otherwise run one `taskStep` and
continue with the remaining queue. -/
def runTasks (project : String) (res : Config → Nat → TaskResult)
    (notify : NotifyEvent → Bool) : List Nat → PipeState → PipeState
  | [], st => st
  | t :: rest, st =>
    if st.pipeline_stopped = true then st
    else runTasks project res notify rest (taskStep project res notify t st)

/-- The configuration adjustment at the start of `run_implement`
(`implement.py` lines 36-38): with `no_recovery`, `recovery_enabled` is
set to False on the process-wide config object. -/
def run_implement_config (cfg0 : Config) (no_recovery : Bool) : Config :=
  if no_recovery = true then { cfg0 with recovery_enabled := false } else cfg0

/-- The empty pipeline state a session starts from. -/
def initPipeState (cfg : Config) : PipeState :=
  ⟨cfg, [], [], [], false, [], []⟩

/-- The pipeline state right after the session-start notification
(`implement.py` lines 49-78). -/
def sessionStart (cfg : Config) (notify : NotifyEvent → Bool) : PipeState :=
  { initPipeState cfg with
    sent := [(NotifyEvent.session_start, notify NotifyEvent.session_start)] }

/-- The notification-independent core of a pipeline state: everything but
the `sent` log (used to compare runs under different notifier oracles). -/
def coreOf (st : PipeState) :
    Config × List Nat × List Nat × List String × Bool × List PipeEvent :=
  (st.cfg, st.completed, st.failed, st.failed_reasons, st.pipeline_stopped, st.events)

/-- The result of `run_implement`: the process exit code and the final
pipeline state. -/
structure RunResult where
  exitCode : Nat
  state : PipeState
  deriving DecidableEq, Repr

/-- Embedding of `run_implement` (`implement.py` lines 17-159): adjust the config for
`no_recovery`, reject an empty task list with exit 1, notify session
start, run the task loop, notify session completion, and exit 0 exactly
when the failed list is empty. -/
def run_implement (project : String) (cfg0 : Config) (no_recovery : Bool)
    (res : Config → Nat → TaskResult) (notify : NotifyEvent → Bool)
    (tasks : List Nat) : RunResult :=
  let cfg := run_implement_config cfg0 no_recovery
  if tasks = [] then ⟨1, initPipeState cfg⟩
  else
    let stF := runTasks project res notify tasks (sessionStart cfg notify)
    let stF2 : PipeState :=
      { stF with sent := stF.sent ++ [(NotifyEvent.session_complete, notify NotifyEvent.session_complete)] }
    ⟨if stF2.failed = [] then 0 else 1, stF2⟩

/-- Whether a character list starts with the given needle (helper for the
Python substring operator). -/
def hasPrefixChars : List Char → List Char → Bool
  | [], _ => true
  | _ :: _, [] => false
  | a :: as, b :: bs => if a = b then hasPrefixChars as bs else false

/-- Whether a character list contains the needle as a contiguous run. -/
def containsChars (needle : List Char) : List Char → Bool
  | [] => decide (needle = [])
  | c :: rest => hasPrefixChars needle (c :: rest) || containsChars needle rest

/-- Python's `sub in s` substring test on strings. -/
def strContains (s sub : String) : Bool :=
  containsChars sub.data s.data

/-- Python's `str.lower()` (ASCII case folding suffices for the markers
involved). -/
def lowerStr (s : String) : String :=
  ⟨s.data.map Char.toLower⟩

/-- The result record of `health_check.py` (`HealthResult`): exit code,
status name, message. -/
structure HealthResult where
  code : Nat
  status : String
  message : String
  deriving DecidableEq, Repr

/-- The structured-result error classification of `check_health`
(`health_check.py` lines 87-95): each kind's markers are checked over the
explicit error-code field and the message, in the order 401, then
429/"rate", then 529/"overloaded", then the generic API error. -/
def classify_error (error_code error_msg : String) : HealthResult :=
  if strContains error_code "401" = true ∨ strContains error_msg "401" = true then
    ⟨1, "AUTH_ERROR", "Authentication error: " ++ error_msg⟩
  else if strContains error_code "429" = true ∨ strContains error_msg "429" = true ∨
      strContains (lowerStr error_msg) "rate" = true then
    ⟨2, "RATE_LIMITED", "Rate limited: " ++ error_msg⟩
  else if strContains error_code "529" = true ∨ strContains error_msg "529" = true ∨
      strContains (lowerStr error_msg) "overloaded" = true then
    ⟨4, "OVERLOADED", "API overloaded: " ++ error_msg⟩
  else
    ⟨3, "API_ERROR", "API error: " ++ error_msg⟩

/-- The raw-output fallback classification of `check_health`
(`health_check.py` lines 71-78), used when no line of the output parses
as JSON.  Note the source compares the literal `"Unauthorized"` against
the lowercased output. -/
def classify_raw (output : String) : HealthResult :=
  if strContains output "401" = true ∨ strContains (lowerStr output) "Unauthorized" = true then
    ⟨1, "AUTH_ERROR", "Authentication failed (401)"⟩
  else if strContains output "429" = true ∨ strContains (lowerStr output) "rate" = true then
    ⟨2, "RATE_LIMITED", "Rate limited (429)"⟩
  else if strContains output "529" = true ∨ strContains (lowerStr output) "overloaded" = true then
    ⟨4, "OVERLOADED", "API overloaded (529)"⟩
  else
    ⟨3, "PARSE_ERROR", "Could not parse response: " ++ output⟩

/-- A line of the health-check output as far as the reversed scan consults
it: its JSON type plus the error fields used afterwards.  A stream line is
`none` when it fails JSON parsing. -/
structure HLine where
  type : String
  is_error : Bool
  error_code : String
  error_msg : String
  deriving DecidableEq, Repr

/-- The reversed-line scan of `check_health` (`health_check.py` lines
59-68): iterate the lines in reverse, skip lines that fail JSON parsing,
remember the last line that parsed, and break at the first record whose
type is "result". -/
def findResultData : List (Option HLine) → Option HLine → Option HLine
  | [], data => data
  | none :: rest, data => findResultData rest data
  | some d :: rest, data =>
    if d.type = "result" then some d else findResultData rest (some d)

/-- The record `check_health` settles on after scanning the whole output
(`data` after the loop of lines 62-68). -/
def scanData (lines : List (Option HLine)) : Option HLine :=
  findResultData lines.reverse none

/-- The usage sub-record of a stream-json result line
(`format-output.py` lines 187-190). -/
structure Usage where
  input_tokens : Nat
  output_tokens : Nat
  cache_read_input_tokens : Nat
  deriving DecidableEq, Repr

/-- One element of an assistant message's content list
(`format-output.py` lines 248-256). -/
inductive ContentItem
  | text (s : String)
  | tool_use (name : String)
  | otherItem
  deriving DecidableEq, Repr

/-- A parsed stream-json line as far as `format-output.py` consults it.
A stream line that fails JSON parsing is represented as `none` at the
stream level. -/
structure FRecord where
  type : Option String
  subtype : Option String
  is_error : Bool
  usage : Usage
  total_cost_usd : Rat
  result : String
  error_code : String
  session_id : String
  model : String
  content : List ContentItem
  deriving DecidableEq, Repr

/-- The running session statistics of `format-output.py`
(`session_stats`, lines 119-125). -/
structure Stats where
  input_tokens : Nat
  output_tokens : Nat
  cache_read : Nat
  cost_usd : Rat
  tool_calls : Nat
  deriving DecidableEq, Repr

/-- One displayed fragment of an assistant line: a stripped nonempty text
block or a formatted tool call (ANSI styling and icon choice elided —
display only). -/
inductive OutPart
  | textPart (s : String)
  | toolPart (name : String)
  deriving DecidableEq, Repr

/-- The classification output `process_line` produces for one stream line
(the data flowing into the formatted string; ANSI styling elided). -/
inductive OutLine
  | initLine (session_id model : String)
  | errorLine (error_code subtype result : String)
  | metricsLine (input_t output_t : Nat) (cost : Rat)
  | assistantLine (parts : List OutPart)
  deriving DecidableEq, Repr

/-- The assistant-content walk of `process_line`
(`format-output.py` lines 247-256): text items are kept when nonempty
after stripping; each tool_use is formatted through `format_tool`, which
increments the tool_calls counter. -/
def processContent (stats : Stats) : List ContentItem → Stats × List OutPart
  | [] => (stats, [])
  | ContentItem.text s :: rest =>
    let t := s.trim
    let sp := processContent stats rest
    if t = "" then sp else (sp.1, OutPart.textPart t :: sp.2)
  | ContentItem.tool_use n :: rest =>
    let sp := processContent { stats with tool_calls := stats.tool_calls + 1 } rest
    (sp.1, OutPart.toolPart n :: sp.2)
  | ContentItem.otherItem :: rest => processContent stats rest

/-- Embedding of `process_result` (`format-output.py` lines 183-220): accumulate usage
and cost into the running totals, then emit either the error line or the
metrics line. -/
def process_result (stats : Stats) (d : FRecord) : Stats × OutLine :=
  let input_t := d.usage.input_tokens + d.usage.cache_read_input_tokens
  let output_t := d.usage.output_tokens
  let stats2 : Stats :=
    { stats with
      input_tokens := stats.input_tokens + input_t
      output_tokens := stats.output_tokens + output_t
      cache_read := stats.cache_read + d.usage.cache_read_input_tokens
      cost_usd := stats.cost_usd + d.total_cost_usd }
  if d.is_error = true then
    (stats2, OutLine.errorLine d.error_code (d.subtype.getD "") d.result)
  else
    (stats2, OutLine.metricsLine input_t output_t d.total_cost_usd)

/-- Embedding of `process_line` (`format-output.py` lines 223-258): a line that fails
JSON parsing (`none`) yields no output and leaves the running totals
untouched; otherwise dispatch on the record type. -/
def process_line (stats : Stats) (line : Option FRecord) : Stats × Option OutLine :=
  match line with
  | none => (stats, none)
  | some d =>
    if d.type = some "system" ∧ d.subtype = some "init" then
      (stats, some (OutLine.initLine d.session_id d.model))
    else if d.type = some "result" then
      let so := process_result stats d
      (so.1, some so.2)
    else if ¬ d.type = some "assistant" then
      (stats, none)
    else
      let sp := processContent stats d.content
      (sp.1, if sp.2 = [] then none else some (OutLine.assistantLine sp.2))

/-- The stdin loop of `format-output.py` (`main`, lines 284-293) folded
over a whole stream: thread the running totals through `process_line` and
collect the emitted lines in order. -/
def processStream (stats : Stats) : List (Option FRecord) → Stats × List OutLine
  | [] => (stats, [])
  | l :: rest =>
    let so := process_line stats l
    let rest2 := processStream so.1 rest
    (rest2.1, so.2.toList ++ rest2.2)

/-- The state of a git repository as consulted by `git.py`: the dirtiness
flag, the unstaged-diff paths, the untracked files, and whether each of
the two reset commands raises `GitCommandError`.  A directory that is not
a git repository is `none`. -/
structure RepoState where
  is_dirty : Bool
  diff_paths : List String
  untracked_files : List String
  checkout_raises : Bool
  clean_raises : Bool
  deriving DecidableEq, Repr

/-- Embedding of `get_repo` (`git.py` lines 13-18): a non-repository directory yields
`None` (`InvalidGitRepositoryError` is caught). -/
def get_repo (w : Option RepoState) : Option RepoState := w

/-- Embedding of `get_files_to_clean` (`git.py` lines 21-39): the modified and untracked
listings, both empty when the repository is absent or not dirty. -/
def get_files_to_clean (w : Option RepoState) : List String × List String :=
  match get_repo w with
  | none => ([], [])
  | some repo =>
    if repo.is_dirty = true then (repo.diff_paths, repo.untracked_files) else ([], [])

/-- The outcome of one `repo.git` command: `GitCommandError` or success. -/
def tryGit (raises : Bool) : Except String Unit :=
  if raises = true then Except.error "GitCommandError" else Except.ok ()

/-- Embedding of `cleanup_working_dir` (`git.py` lines 42-70): compute the list of
modified plus untracked files first, then run `git checkout -- .` and
`git clean -fd`, each with `GitCommandError` caught and only logged, and
return the precomputed list. -/
def cleanup_working_dir (w : Option RepoState) : List String :=
  match get_repo w with
  | none => []
  | some repo =>
    let mu := get_files_to_clean w
    let cleaned := mu.1 ++ mu.2
    let _checkoutOutcome := tryGit repo.checkout_raises
    let _cleanOutcome := tryGit repo.clean_raises
    cleaned

/-- The notifier of `notify.py` (`Notifier.__init__`): the token and chat
id, each possibly absent. -/
structure Notifier where
  token : Option String
  chat_id : Option String
  deriving DecidableEq, Repr

/-- Python truthiness of an optional string: `None` and `""` are falsy
(`bool(self.token and self.chat_id)`, `notify.py` line 66). -/
def truthyStr : Option String → Bool
  | none => false
  | some s => decide (¬ s = "")

/-- Embedding of `Notifier.is_configured` (`notify.py` lines 63-66). -/
def Notifier.is_configured (n : Notifier) : Bool :=
  truthyStr n.token && truthyStr n.chat_id

/-- The observable outcome of the HTTP exchange inside `send_telegram`:
either some exception from the request, the send, or the response parse
(all caught by the bare `except Exception`), or the parsed response's
`ok` field (absent defaulting to False is folded into the boolean). -/
inductive NetOutcome
  | raised (msg : String)
  | responded (ok : Bool)
  deriving DecidableEq, Repr

/-- Embedding of `send_telegram` (`notify.py` lines 20-44): any exception is caught,
printed to stderr, and yields False; otherwise the response's `ok`
field is returned. -/
def send_telegram (_token _chat_id _message : String) (net : NetOutcome) : Bool :=
  match net with
  | NetOutcome.raised _ => false
  | NetOutcome.responded ok => ok

/-- Embedding of `Notifier._send` (`notify.py` lines 68-72): return False without
sending when unconfigured, otherwise delegate to `send_telegram`.  The
second component records whether `send_telegram` was invoked at all. -/
def Notifier.sendIfConfigured (n : Notifier) (message : String) (net : NetOutcome) :
    Bool × Bool :=
  if n.is_configured = true then
    (send_telegram (n.token.getD "") (n.chat_id.getD "") message net, true)
  else (false, false)

theorem is_fatal_iff (et : ErrorType) : et.is_fatal = true ↔ et = ErrorType.auth_error := by
  cases et <;> simp [ErrorType.is_fatal]

theorem is_success_iff (et : ErrorType) : et.is_success = true ↔ et = ErrorType.success := by
  cases et <;> simp [ErrorType.is_success]

theorem transientKind_not_terminalish (et : ErrorType) (h : transientKind et = true) :
    et.is_success = false ∧ ¬ et = ErrorType.on_hold ∧
      ¬ et = ErrorType.context_overflow := by
  cases et <;> simp_all [transientKind, ErrorType.is_success]

theorem exec_head_invocation (cfg : Config) (probe : Nat → Bool)
    (script : List TaskResult) (st : ExecState) (k : Nat) (er : ExecResult)
    (h : execute_task_with_recovery cfg probe script st k = some er) :
    er.invocations.head? = some ⟨st.resume_session, st.recovery_note⟩ := by
  cases script with
  | nil => simp [execute_task_with_recovery] at h
  | cons r rest =>
    rw [execute_task_with_recovery] at h
    split at h
    · cases h; rfl
    · split at h
      · obtain ⟨a, _, hfa⟩ := Option.map_eq_some'.mp h
        cases hfa; rfl
      · split at h
        · dsimp only [] at h
          split at h
          · obtain ⟨a, _, hfa⟩ := Option.map_eq_some'.mp h
            cases hfa; rfl
          · cases h; rfl
        · cases h; rfl

/-- C2: with `context_overflow_max_retries = 2`, three consecutive
`ContextOverflow` outcomes produce exactly two `RetryFresh` transitions
(fresh sessions, with the numbered overflow notes), and the third
`ContextOverflow` outcome is returned as the task's terminal result. -/
theorem c2_overflow_budget (cfg : Config) (probe : Nat → Bool) (o1 o2 o3 : TaskResult)
    (hc : cfg.context_overflow_max_retries = 2)
    (h1 : o1.error_type = ErrorType.context_overflow)
    (h2 : o2.error_type = ErrorType.context_overflow)
    (h3 : o3.error_type = ErrorType.context_overflow) :
    execute_task_with_recovery cfg probe [o1, o2, o3] initExecState 0 =
      some ⟨o3,
        [⟨none, none⟩, ⟨none, some (overflowNote 1 2)⟩, ⟨none, some (overflowNote 2 2)⟩],
        [Transition.retryFresh, Transition.retryFresh]⟩ := by
  simp [execute_task_with_recovery, initExecState, should_retry_fresh, should_recover,
    transientKind, ErrorType.is_success, h1, h2, h3, hc]

theorem c2_overflow_budget_witness :
    execute_task_with_recovery defaultConfig (fun _ => true)
        [⟨ErrorType.context_overflow, "overflow", some "s1", 10, 0⟩,
         ⟨ErrorType.context_overflow, "overflow", some "s2", 10, 0⟩,
         ⟨ErrorType.context_overflow, "overflow", some "s3", 10, 0⟩]
        initExecState 0 =
      some ⟨⟨ErrorType.context_overflow, "overflow", some "s3", 10, 0⟩,
        [⟨none, none⟩, ⟨none, some (overflowNote 1 2)⟩, ⟨none, some (overflowNote 2 2)⟩],
        [Transition.retryFresh, Transition.retryFresh]⟩ :=
  c2_overflow_budget defaultConfig (fun _ => true) _ _ _ rfl rfl rfl rfl

/-- C6: on a context-overflow retry within the retry budget, the retry
counter is incremented, the resume session is cleared (the next
invocation starts a brand-new session), and the numbered
focus-on-essential-changes recovery note is passed into the next
invocation. -/
theorem c6_overflow_retry_state (cfg : Config) (probe : Nat → Bool) (o : TaskResult)
    (rest : List TaskResult) (st : ExecState) (k : Nat)
    (h1 : o.error_type = ErrorType.context_overflow)
    (h2 : st.context_overflow_attempts < cfg.context_overflow_max_retries) :
    execute_task_with_recovery cfg probe (o :: rest) st k =
      (execute_task_with_recovery cfg probe rest
          ⟨st.context_overflow_attempts + 1, none,
            some (overflowNote (st.context_overflow_attempts + 1)
              cfg.context_overflow_max_retries)⟩ k).map
        (fun er => ⟨er.outcome, ⟨st.resume_session, st.recovery_note⟩ :: er.invocations,
          Transition.retryFresh :: er.transitions⟩) ∧
    ∀ er, execute_task_with_recovery cfg probe (o :: rest) st k = some er →
      er.invocations.get? 1 =
        some ⟨none, some (overflowNote (st.context_overflow_attempts + 1)
          cfg.context_overflow_max_retries)⟩ ∧
      er.transitions.head? = some Transition.retryFresh := by
  have hstep : execute_task_with_recovery cfg probe (o :: rest) st k =
      (execute_task_with_recovery cfg probe rest
          ⟨st.context_overflow_attempts + 1, none,
            some (overflowNote (st.context_overflow_attempts + 1)
              cfg.context_overflow_max_retries)⟩ k).map
        (fun er => ⟨er.outcome, ⟨st.resume_session, st.recovery_note⟩ :: er.invocations,
          Transition.retryFresh :: er.transitions⟩) := by
    rw [execute_task_with_recovery]
    simp [h1, h2, ErrorType.is_success, should_retry_fresh]
  refine ⟨hstep, ?_⟩
  intro er her
  rw [hstep] at her
  obtain ⟨a, ha, hfa⟩ := Option.map_eq_some'.mp her
  have hhead := exec_head_invocation cfg probe rest _ k a ha
  subst hfa
  refine ⟨?_, rfl⟩
  rw [show (ExecResult.mk a.outcome
      (⟨st.resume_session, st.recovery_note⟩ :: a.invocations)
      (Transition.retryFresh :: a.transitions)).invocations.get? 1 =
      a.invocations.get? 0 from rfl, List.get?_zero, hhead]

theorem c6_overflow_retry_state_witness :
    (⟨ErrorType.context_overflow, "overflow", some "s1", 1, 0⟩ : TaskResult).error_type =
        ErrorType.context_overflow ∧
    initExecState.context_overflow_attempts < defaultConfig.context_overflow_max_retries ∧
    (execute_task_with_recovery defaultConfig (fun _ => true)
        [⟨ErrorType.context_overflow, "overflow", some "s1", 1, 0⟩,
         ⟨ErrorType.success, "done", some "s2", 1, 0⟩] initExecState 0 =
      (execute_task_with_recovery defaultConfig (fun _ => true)
          [⟨ErrorType.success, "done", some "s2", 1, 0⟩]
          ⟨1, none, some (overflowNote 1 2)⟩ 0).map
        (fun er => ⟨er.outcome, ⟨none, none⟩ :: er.invocations,
          Transition.retryFresh :: er.transitions⟩)) :=
  ⟨rfl, by decide,
    (c6_overflow_retry_state defaultConfig (fun _ => true) _ _ initExecState 0 rfl
      (by decide)).1⟩

/-- C3: on a transient API failure with recovery enabled, if the backoff
loop reports recovered, the next invocation resumes the session captured
from the failed attempt with the resume recovery note; if every delay is
exhausted without recovering, the original failing outcome is the task's
terminal result. -/
theorem c3_backoff_resume (cfg : Config) (probe : Nat → Bool) (o : TaskResult)
    (rest : List TaskResult) (st : ExecState) (k : Nat)
    (htr : transientKind o.error_type = true)
    (hen : cfg.recovery_enabled = true) :
    ((recovery_loop cfg probe k).1 = true →
      execute_task_with_recovery cfg probe (o :: rest) st k =
        (execute_task_with_recovery cfg probe rest
            ⟨st.context_overflow_attempts, o.session_id,
              some (resumeNote o.error_type.value)⟩
            (recovery_loop cfg probe k).2).map
          (fun er => ⟨er.outcome, ⟨st.resume_session, st.recovery_note⟩ :: er.invocations,
            Transition.retryAfterBackoff :: er.transitions⟩) ∧
      ∀ er, execute_task_with_recovery cfg probe (o :: rest) st k = some er →
        er.invocations.get? 1 =
          some ⟨o.session_id, some (resumeNote o.error_type.value)⟩) ∧
    ((recovery_loop cfg probe k).1 = false →
      execute_task_with_recovery cfg probe (o :: rest) st k =
        some ⟨o, [⟨st.resume_session, st.recovery_note⟩], []⟩) := by
  obtain ⟨hsucc, hhold, hco⟩ := transientKind_not_terminalish o.error_type htr
  have hrec : should_recover o.error_type cfg = true := by
    simp [should_recover, hen, htr]
  have hfresh : should_retry_fresh o.error_type st.context_overflow_attempts cfg = false := by
    simp [should_retry_fresh, hco]
  constructor
  · intro hok
    have hstep : execute_task_with_recovery cfg probe (o :: rest) st k =
        (execute_task_with_recovery cfg probe rest
            ⟨st.context_overflow_attempts, o.session_id,
              some (resumeNote o.error_type.value)⟩
            (recovery_loop cfg probe k).2).map
          (fun er => ⟨er.outcome, ⟨st.resume_session, st.recovery_note⟩ :: er.invocations,
            Transition.retryAfterBackoff :: er.transitions⟩) := by
      rw [execute_task_with_recovery]
      simp [hsucc, hhold, hfresh, hrec, hok]
    refine ⟨hstep, ?_⟩
    intro er her
    rw [hstep] at her
    obtain ⟨a, ha, hfa⟩ := Option.map_eq_some'.mp her
    have hhead := exec_head_invocation cfg probe rest _ _ a ha
    subst hfa
    rw [show (ExecResult.mk a.outcome
        (⟨st.resume_session, st.recovery_note⟩ :: a.invocations)
        (Transition.retryAfterBackoff :: a.transitions)).invocations.get? 1 =
        a.invocations.get? 0 from rfl, List.get?_zero, hhead]
  · intro hfail
    rw [execute_task_with_recovery]
    simp [hsucc, hhold, hfresh, hrec, hfail]

theorem c3_backoff_resume_witness :
    transientKind (ErrorType.rate_limited) = true ∧
    (recovery_loop defaultConfig (fun _ => true) 0).1 = true ∧
    execute_task_with_recovery defaultConfig (fun _ => true)
        [⟨ErrorType.rate_limited, "429", some "sess-a", 5, 0⟩,
         ⟨ErrorType.success, "done", some "sess-b", 5, 0⟩] initExecState 0 =
      (execute_task_with_recovery defaultConfig (fun _ => true)
          [⟨ErrorType.success, "done", some "sess-b", 5, 0⟩]
          ⟨0, some "sess-a", some (resumeNote ErrorType.rate_limited.value)⟩
          (recovery_loop defaultConfig (fun _ => true) 0).2).map
        (fun er => ⟨er.outcome, ⟨none, none⟩ :: er.invocations,
          Transition.retryAfterBackoff :: er.transitions⟩) :=
  ⟨rfl, by decide,
    ((c3_backoff_resume defaultConfig (fun _ => true)
        ⟨ErrorType.rate_limited, "429", some "sess-a", 5, 0⟩
        [⟨ErrorType.success, "done", some "sess-b", 5, 0⟩] initExecState 0
        (by decide) rfl).1 (by decide)).1⟩

/-- C4 counterexample: two aspects of the claim fail on the code.
First, the explicit error-code field is NOT inspected before substring
matching on the message: with the error-code field containing the
rate-limit marker "429" and the message containing the auth marker
"401", the classifier returns AUTH_ERROR (the message's
higher-precedence marker wins), not RATE_LIMITED as code-field-first
inspection would require.  Second, "unauthorized" is not an effective
authentication marker: the structured branch checks only "401"
(`health_check.py` line 88), so the message "Unauthorized access"
classifies as the generic API_ERROR; and the raw-output fallback's
"Unauthorized" check (line 72) can never fire because it compares the
capitalized literal against the lowercased output, so the same text
falls through to PARSE_ERROR instead of AUTH_ERROR. -/
theorem c4_precedence_counterexample :
    ((classify_error "429" "401 Unauthorized").status = "AUTH_ERROR" ∧
      ¬ (classify_error "429" "401 Unauthorized").status = "RATE_LIMITED") ∧
    ((classify_error "" "Unauthorized access").status = "API_ERROR" ∧
      ¬ (classify_error "" "Unauthorized access").status = "AUTH_ERROR") ∧
    ((classify_raw "Unauthorized access").status = "PARSE_ERROR" ∧
      ¬ (classify_raw "Unauthorized access").status = "AUTH_ERROR") := by
  decide

/-- C4 amended: the error-kind precedence auth > rate-limit > overload >
generic is applied per kind over the explicit error-code field and the
message together (a higher-precedence marker in the message overrides a
lower-precedence error-code), and the effective authentication marker is
"401" alone — "unauthorized" does not trigger the auth kind in the
structured branch, and in the raw-output fallback its check is dead, so
"Unauthorized access" falls through to PARSE_ERROR there; the literal
examples classify as stated, and a message with both a rate-limit and an
overload marker resolves to rate-limited. -/
theorem c4_amended_precedence :
    (∀ code msg, (strContains code "401" = true ∨ strContains msg "401" = true) →
      (classify_error code msg).status = "AUTH_ERROR") ∧
    (∀ code msg, ¬ (strContains code "401" = true ∨ strContains msg "401" = true) →
      (strContains code "429" = true ∨ strContains msg "429" = true ∨
        strContains (lowerStr msg) "rate" = true) →
      (classify_error code msg).status = "RATE_LIMITED") ∧
    (∀ code msg, ¬ (strContains code "401" = true ∨ strContains msg "401" = true) →
      ¬ (strContains code "429" = true ∨ strContains msg "429" = true ∨
        strContains (lowerStr msg) "rate" = true) →
      (strContains code "529" = true ∨ strContains msg "529" = true ∨
        strContains (lowerStr msg) "overloaded" = true) →
      (classify_error code msg).status = "OVERLOADED") ∧
    (∀ code msg, ¬ (strContains code "401" = true ∨ strContains msg "401" = true) →
      ¬ (strContains code "429" = true ∨ strContains msg "429" = true ∨
        strContains (lowerStr msg) "rate" = true) →
      ¬ (strContains code "529" = true ∨ strContains msg "529" = true ∨
        strContains (lowerStr msg) "overloaded" = true) →
      (classify_error code msg).status = "API_ERROR") ∧
    (classify_error "" "401 Unauthorized").status = "AUTH_ERROR" ∧
    (classify_error "" "429 rate limit exceeded").status = "RATE_LIMITED" ∧
    (classify_error "" "529 overloaded").status = "OVERLOADED" ∧
    (classify_error "" "429 rate limit exceeded; 529 overloaded").status =
      "RATE_LIMITED" ∧
    (classify_error "" "Unauthorized access").status = "API_ERROR" ∧
    (classify_raw "Unauthorized access").status = "PARSE_ERROR" := by
  refine ⟨?_, ?_, ?_, ?_, by decide, by decide, by decide, by decide, by decide, by decide⟩
  · intro code msg h1
    unfold classify_error
    rw [if_pos h1]
  · intro code msg h1 h2
    unfold classify_error
    rw [if_neg h1, if_pos h2]
  · intro code msg h1 h2 h3
    unfold classify_error
    rw [if_neg h1, if_neg h2, if_pos h3]
  · intro code msg h1 h2 h3
    unfold classify_error
    rw [if_neg h1, if_neg h2, if_neg h3]

theorem c4_amended_precedence_witness :
    (classify_error "" "rate limit hit while overloaded").status = "RATE_LIMITED" :=
  c4_amended_precedence.2.1 "" "rate limit hit while overloaded" (by decide) (by decide)

theorem findResultData_filter (lines : List (Option HLine)) (data : Option HLine) :
    findResultData (lines.filter fun l => l.isSome) data = findResultData lines data := by
  induction lines generalizing data with
  | nil => rfl
  | cons l rest ih =>
    cases l with
    | none => simpa [findResultData, List.filter_cons] using ih data
    | some d =>
      by_cases h : d.type = "result" <;>
        simp [findResultData, List.filter_cons, h, ih]

theorem scanData_filter (lines : List (Option HLine)) :
    scanData (lines.filter fun l => l.isSome) = scanData lines := by
  unfold scanData
  rw [← List.filter_reverse]
  exact findResultData_filter lines.reverse none

theorem processStream_filter (stats : Stats) (lines : List (Option FRecord)) :
    processStream stats (lines.filter fun l => l.isSome) = processStream stats lines := by
  induction lines generalizing stats with
  | nil => rfl
  | cons l rest ih =>
    cases l with
    | none => simpa [processStream, process_line, List.filter_cons] using ih stats
    | some d => simp [processStream, List.filter_cons, ih]

/-- C7: a stream line that fails structural (JSON) parsing is skipped — it
produces no output and leaves the running usage/cost totals unchanged —
and both the formatter's stream fold and the health check's final
classification are unchanged when malformed lines are stripped from the
stream. -/
theorem c7_malformed_lines_skipped (stats : Stats) (lines : List (Option FRecord))
    (hlines : List (Option HLine)) :
    process_line stats none = (stats, none) ∧
    processStream stats (lines.filter fun l => l.isSome) = processStream stats lines ∧
    scanData (hlines.filter fun l => l.isSome) = scanData hlines :=
  ⟨rfl, processStream_filter stats lines, scanData_filter hlines⟩

theorem taskStep_cfg (project : String) (res : Config → Nat → TaskResult)
    (notify : NotifyEvent → Bool) (t : Nat) (st : PipeState) :
    (taskStep project res notify t st).cfg = st.cfg := by
  unfold taskStep
  dsimp only []
  split_ifs <;> rfl

theorem taskStep_nonfatal_stopped (project : String) (res : Config → Nat → TaskResult)
    (notify : NotifyEvent → Bool) (t : Nat) (st : PipeState)
    (h : (res st.cfg t).error_type.is_fatal = false) :
    (taskStep project res notify t st).pipeline_stopped = st.pipeline_stopped := by
  unfold taskStep
  dsimp only []
  split_ifs with h1 h2 h3
  · rfl
  · rfl
  · rw [h3] at h; cases h
  · rfl

theorem taskStep_fatal (project : String) (res : Config → Nat → TaskResult)
    (notify : NotifyEvent → Bool) (t : Nat) (st : PipeState)
    (h : (res st.cfg t).error_type.is_fatal = true) :
    taskStep project res notify t st =
      { st with
        events := st.events ++ [PipeEvent.cleanup t, PipeEvent.invoke t]
        failed := st.failed ++ [t]
        failed_reasons := st.failed_reasons ++ [(res st.cfg t).error_type.value]
        pipeline_stopped := true
        sent := st.sent ++
          [(NotifyEvent.pipeline_stopped (res st.cfg t).error_type.value,
            notify (NotifyEvent.pipeline_stopped (res st.cfg t).error_type.value))] } := by
  have hauth := (is_fatal_iff (res st.cfg t).error_type).mp h
  unfold taskStep
  dsimp only []
  rw [if_neg, if_neg, if_pos h]
  · rw [hauth]; simp
  · rw [hauth]; simp [ErrorType.is_success]

theorem runTasks_stopped (project : String) (res : Config → Nat → TaskResult)
    (notify : NotifyEvent → Bool) (ts : List Nat) (st : PipeState)
    (h : st.pipeline_stopped = true) :
    runTasks project res notify ts st = st := by
  cases ts with
  | nil => rfl
  | cons t rest => rw [runTasks, if_pos h]

theorem runTasks_cfg (project : String) (res : Config → Nat → TaskResult)
    (notify : NotifyEvent → Bool) (ts : List Nat) (st : PipeState) :
    (runTasks project res notify ts st).cfg = st.cfg := by
  induction ts generalizing st with
  | nil => rfl
  | cons t rest ih =>
    rw [runTasks]
    by_cases h : st.pipeline_stopped = true
    · rw [if_pos h]
    · rw [if_neg h, ih, taskStep_cfg]

theorem runTasks_append (project : String) (res : Config → Nat → TaskResult)
    (notify : NotifyEvent → Bool) (l1 l2 : List Nat) (st : PipeState) :
    runTasks project res notify (l1 ++ l2) st =
      runTasks project res notify l2 (runTasks project res notify l1 st) := by
  induction l1 generalizing st with
  | nil => rfl
  | cons t rest ih =>
    rw [List.cons_append, runTasks, runTasks]
    by_cases h : st.pipeline_stopped = true
    · rw [if_pos h, if_pos h, runTasks_stopped project res notify l2 st h]
    · rw [if_neg h, if_neg h, ih]

theorem runTasks_nonfatal_not_stopped (project : String) (res : Config → Nat → TaskResult)
    (notify : NotifyEvent → Bool) (ts : List Nat) (st : PipeState)
    (hst : st.pipeline_stopped = false)
    (h : ∀ t ∈ ts, (res st.cfg t).error_type.is_fatal = false) :
    (runTasks project res notify ts st).pipeline_stopped = false := by
  induction ts generalizing st with
  | nil => exact hst
  | cons t rest ih =>
    rw [runTasks, if_neg (by rw [hst]; exact Bool.false_ne_true)]
    have ht := h t (List.mem_cons_self t rest)
    refine ih (taskStep project res notify t st) ?_ ?_
    · rw [taskStep_nonfatal_stopped project res notify t st ht, hst]
    · intro u hu
      rw [taskStep_cfg]
      exact h u (List.mem_cons_of_mem t hu)

theorem taskStep_failed_extend (project : String) (res : Config → Nat → TaskResult)
    (notify : NotifyEvent → Bool) (t : Nat) (st : PipeState) :
    ∃ l, (taskStep project res notify t st).failed = st.failed ++ l := by
  unfold taskStep
  dsimp only []
  split_ifs
  · exact ⟨[], (List.append_nil _).symm⟩
  · exact ⟨[], (List.append_nil _).symm⟩
  · exact ⟨[t], rfl⟩
  · exact ⟨[t], rfl⟩

theorem runTasks_failed_extend (project : String) (res : Config → Nat → TaskResult)
    (notify : NotifyEvent → Bool) (ts : List Nat) (st : PipeState) :
    ∃ l, (runTasks project res notify ts st).failed = st.failed ++ l := by
  induction ts generalizing st with
  | nil => exact ⟨[], (List.append_nil _).symm⟩
  | cons t rest ih =>
    rw [runTasks]
    by_cases h : st.pipeline_stopped = true
    · rw [if_pos h]; exact ⟨[], (List.append_nil _).symm⟩
    · rw [if_neg h]
      obtain ⟨l1, hl1⟩ := taskStep_failed_extend project res notify t st
      obtain ⟨l2, hl2⟩ := ih (taskStep project res notify t st)
      exact ⟨l1 ++ l2, by rw [hl2, hl1, List.append_assoc]⟩

theorem runTasks_fatal_halts (project : String) (res : Config → Nat → TaskResult)
    (notify : NotifyEvent → Bool) (l1 : List Nat) (t : Nat) (l2 : List Nat)
    (st0 : PipeState) (hstop : st0.pipeline_stopped = false)
    (h1 : ∀ u ∈ l1, (res st0.cfg u).error_type.is_fatal = false)
    (h2 : (res st0.cfg t).error_type.is_fatal = true) :
    runTasks project res notify (l1 ++ t :: l2) st0 =
      runTasks project res notify (l1 ++ [t]) st0 ∧
    (runTasks project res notify (l1 ++ t :: l2) st0).pipeline_stopped = true ∧
    (∃ pre, (runTasks project res notify (l1 ++ t :: l2) st0).failed = pre ++ [t]) ∧
    ((NotifyEvent.pipeline_stopped (res st0.cfg t).error_type.value,
        notify (NotifyEvent.pipeline_stopped (res st0.cfg t).error_type.value)) ∈
      (runTasks project res notify (l1 ++ t :: l2) st0).sent) := by
  have hcfg : (runTasks project res notify l1 st0).cfg = st0.cfg :=
    runTasks_cfg project res notify l1 st0
  have hs1 : (runTasks project res notify l1 st0).pipeline_stopped = false :=
    runTasks_nonfatal_not_stopped project res notify l1 st0 hstop h1
  have hfat : (res (runTasks project res notify l1 st0).cfg t).error_type.is_fatal = true := by
    rw [hcfg]; exact h2
  have hstep := taskStep_fatal project res notify t (runTasks project res notify l1 st0) hfat
  have hnot : ¬ (runTasks project res notify l1 st0).pipeline_stopped = true := by
    rw [hs1]; exact Bool.false_ne_true
  have hstop2 : (taskStep project res notify t (runTasks project res notify l1 st0)).pipeline_stopped = true := by
    rw [hstep]
  have heq1 : runTasks project res notify (l1 ++ t :: l2) st0 =
      taskStep project res notify t (runTasks project res notify l1 st0) := by
    rw [runTasks_append, runTasks, if_neg hnot,
      runTasks_stopped project res notify l2 _ hstop2]
  have heq2 : runTasks project res notify (l1 ++ [t]) st0 =
      taskStep project res notify t (runTasks project res notify l1 st0) := by
    rw [runTasks_append, runTasks, if_neg hnot]
    rfl
  refine ⟨heq1.trans heq2.symm, ?_, ?_, ?_⟩
  · rw [heq1]; exact hstop2
  · rw [heq1, hstep]
    exact ⟨(runTasks project res notify l1 st0).failed, by rw [hcfg]⟩
  · rw [heq1, hstep]
    simp only [hcfg]
    exact List.mem_append_right _ (List.mem_singleton.mpr rfl)

theorem run_implement_def (project : String) (cfg0 : Config) (norec : Bool)
    (res : Config → Nat → TaskResult) (notify : NotifyEvent → Bool)
    (tasks : List Nat) (h : ¬ tasks = []) :
    run_implement project cfg0 norec res notify tasks =
      ⟨if (runTasks project res notify tasks
            (sessionStart (run_implement_config cfg0 norec) notify)).failed = []
        then 0 else 1,
       { runTasks project res notify tasks
            (sessionStart (run_implement_config cfg0 norec) notify) with
         sent := (runTasks project res notify tasks
            (sessionStart (run_implement_config cfg0 norec) notify)).sent ++
           [(NotifyEvent.session_complete, notify NotifyEvent.session_complete)] }⟩ := by
  unfold run_implement
  rw [if_neg h]

/-- C1: if every task before `t` in the queue has a non-fatal terminal
result and `t`'s terminal result is fatal, the whole session is identical
to one whose queue ends at `t` — no cleanup, prompt or invocation ever
happens for any later task — a pipeline_stopped notification is emitted,
and the pipeline's exit code is 1. -/
theorem c1_fatal_halts_pipeline (project : String) (cfg0 : Config) (norec : Bool)
    (res : Config → Nat → TaskResult) (notify : NotifyEvent → Bool)
    (l1 : List Nat) (t : Nat) (l2 : List Nat)
    (h1 : ∀ u ∈ l1, (res (run_implement_config cfg0 norec) u).error_type.is_fatal = false)
    (h2 : (res (run_implement_config cfg0 norec) t).error_type.is_fatal = true) :
    run_implement project cfg0 norec res notify (l1 ++ t :: l2) =
      run_implement project cfg0 norec res notify (l1 ++ [t]) ∧
    (run_implement project cfg0 norec res notify (l1 ++ t :: l2)).exitCode = 1 ∧
    ((NotifyEvent.pipeline_stopped
        (res (run_implement_config cfg0 norec) t).error_type.value,
      notify (NotifyEvent.pipeline_stopped
        (res (run_implement_config cfg0 norec) t).error_type.value)) ∈
      (run_implement project cfg0 norec res notify (l1 ++ t :: l2)).state.sent) := by
  have hne1 : ¬ (l1 ++ t :: l2) = ([] : List Nat) := by simp
  have hne2 : ¬ (l1 ++ [t]) = ([] : List Nat) := by simp
  obtain ⟨heq, -, ⟨pre, hfail⟩, hmem⟩ :=
    runTasks_fatal_halts project res notify l1 t l2
      (sessionStart (run_implement_config cfg0 norec) notify) rfl h1 h2
  rw [run_implement_def project cfg0 norec res notify _ hne1,
      run_implement_def project cfg0 norec res notify _ hne2]
  refine ⟨?_, ?_, ?_⟩
  · rw [heq]
  · dsimp only []
    rw [hfail, if_neg (by simp)]
  · dsimp only []
    exact List.mem_append_left _ hmem

theorem c1_fatal_halts_pipeline_witness :
    run_implement "p" defaultConfig false
        (fun _ _ => ⟨ErrorType.auth_error, "401 Unauthorized", none, 1, 0⟩)
        (fun _ => true) ([] ++ 1 :: [2, 3]) =
      run_implement "p" defaultConfig false
        (fun _ _ => ⟨ErrorType.auth_error, "401 Unauthorized", none, 1, 0⟩)
        (fun _ => true) ([] ++ [1]) ∧
    (run_implement "p" defaultConfig false
        (fun _ _ => ⟨ErrorType.auth_error, "401 Unauthorized", none, 1, 0⟩)
        (fun _ => true) ([] ++ 1 :: [2, 3])).exitCode = 1 ∧
    ((NotifyEvent.pipeline_stopped ErrorType.auth_error.value, true) ∈
      (run_implement "p" defaultConfig false
        (fun _ _ => ⟨ErrorType.auth_error, "401 Unauthorized", none, 1, 0⟩)
        (fun _ => true) ([] ++ 1 :: [2, 3])).state.sent) :=
  c1_fatal_halts_pipeline "p" defaultConfig false
    (fun _ _ => ⟨ErrorType.auth_error, "401 Unauthorized", none, 1, 0⟩)
    (fun _ => true) [] 1 [2, 3]
    (fun u hu => absurd hu (List.not_mem_nil u)) rfl

theorem taskStep_ok (project : String) (res : Config → Nat → TaskResult)
    (notify : NotifyEvent → Bool) (t : Nat) (st : PipeState)
    (h : (res st.cfg t).error_type.is_success = true ∨
      (res st.cfg t).error_type = ErrorType.on_hold) :
    (taskStep project res notify t st).failed = st.failed ∧
    (taskStep project res notify t st).pipeline_stopped = st.pipeline_stopped := by
  unfold taskStep
  dsimp only []
  rcases h with h | h
  · rw [if_pos h]; exact ⟨rfl, rfl⟩
  · have hns : ¬ (res st.cfg t).error_type.is_success = true := by
      rw [h]; simp [ErrorType.is_success]
    rw [if_neg hns, if_pos h]; exact ⟨rfl, rfl⟩

theorem taskStep_notok_failed (project : String) (res : Config → Nat → TaskResult)
    (notify : NotifyEvent → Bool) (t : Nat) (st : PipeState)
    (h1 : ¬ (res st.cfg t).error_type.is_success = true)
    (h2 : ¬ (res st.cfg t).error_type = ErrorType.on_hold) :
    (taskStep project res notify t st).failed = st.failed ++ [t] := by
  unfold taskStep
  dsimp only []
  rw [if_neg h1, if_neg h2]
  split_ifs <;> rfl

theorem runTasks_all_ok_failed (project : String) (res : Config → Nat → TaskResult)
    (notify : NotifyEvent → Bool) (ts : List Nat) (st : PipeState)
    (h : ∀ t ∈ ts, (res st.cfg t).error_type.is_success = true ∨
      (res st.cfg t).error_type = ErrorType.on_hold) :
    (runTasks project res notify ts st).failed = st.failed := by
  induction ts generalizing st with
  | nil => rfl
  | cons t rest ih =>
    rw [runTasks]
    by_cases hstop : st.pipeline_stopped = true
    · rw [if_pos hstop]
    · rw [if_neg hstop]
      obtain ⟨hf, -⟩ := taskStep_ok project res notify t st (h t (List.mem_cons_self t rest))
      rw [ih (taskStep project res notify t st)
        (fun u hu => by
          rw [taskStep_cfg]
          exact h u (List.mem_cons_of_mem t hu))]
      exact hf

theorem runTasks_failed_empty_all_ok (project : String) (res : Config → Nat → TaskResult)
    (notify : NotifyEvent → Bool) (ts : List Nat) (st : PipeState)
    (hstop : st.pipeline_stopped = false)
    (hfe : (runTasks project res notify ts st).failed = st.failed) :
    ∀ t ∈ ts, (res st.cfg t).error_type.is_success = true ∨
      (res st.cfg t).error_type = ErrorType.on_hold := by
  induction ts generalizing st with
  | nil => intro t ht; cases ht
  | cons t rest ih =>
    intro u hu
    rw [runTasks, if_neg (by rw [hstop]; exact Bool.false_ne_true)] at hfe
    by_cases hok : (res st.cfg t).error_type.is_success = true ∨
        (res st.cfg t).error_type = ErrorType.on_hold
    · obtain ⟨hf, hs⟩ := taskStep_ok project res notify t st hok
      rcases List.mem_cons.mp hu with rfl | hu2
      · exact hok
      · have h3 := ih (taskStep project res notify t st) (by rw [hs, hstop])
          (by rw [hf]; exact hfe) u hu2
        rw [taskStep_cfg] at h3
        exact h3
    · exfalso
      push_neg at hok
      have hf := taskStep_notok_failed project res notify t st hok.1 hok.2
      obtain ⟨l, hl⟩ := runTasks_failed_extend project res notify rest
        (taskStep project res notify t st)
      rw [hl, hf] at hfe
      have hlen := congrArg List.length hfe
      simp [List.length_append] at hlen

theorem taskStep_completed_mem (project : String) (res : Config → Nat → TaskResult)
    (notify : NotifyEvent → Bool) (t : Nat) (st : PipeState) (u : Nat)
    (hu : u ∈ (taskStep project res notify t st).completed) :
    u ∈ st.completed ∨ (u = t ∧ (res st.cfg t).error_type.is_success = true) := by
  unfold taskStep at hu
  dsimp only [] at hu
  split_ifs at hu with h1 h2 h3
  · rcases List.mem_append.mp hu with h | h
    · exact Or.inl h
    · exact Or.inr ⟨List.mem_singleton.mp h, h1⟩
  · exact Or.inl hu
  · exact Or.inl hu
  · exact Or.inl hu

theorem taskStep_failed_mem (project : String) (res : Config → Nat → TaskResult)
    (notify : NotifyEvent → Bool) (t : Nat) (st : PipeState) (u : Nat)
    (hu : u ∈ (taskStep project res notify t st).failed) :
    u ∈ st.failed ∨ (u = t ∧ ¬ (res st.cfg t).error_type.is_success = true ∧
      ¬ (res st.cfg t).error_type = ErrorType.on_hold) := by
  unfold taskStep at hu
  dsimp only [] at hu
  split_ifs at hu with h1 h2 h3
  · exact Or.inl hu
  · exact Or.inl hu
  · rcases List.mem_append.mp hu with h | h
    · exact Or.inl h
    · exact Or.inr ⟨List.mem_singleton.mp h, h1, h2⟩
  · rcases List.mem_append.mp hu with h | h
    · exact Or.inl h
    · exact Or.inr ⟨List.mem_singleton.mp h, h1, h2⟩

theorem runTasks_completed_mem (project : String) (res : Config → Nat → TaskResult)
    (notify : NotifyEvent → Bool) (ts : List Nat) (st : PipeState) (u : Nat)
    (hu : u ∈ (runTasks project res notify ts st).completed) :
    u ∈ st.completed ∨ ∃ t, t ∈ ts ∧ u = t ∧
      (res st.cfg t).error_type.is_success = true := by
  induction ts generalizing st with
  | nil => exact Or.inl hu
  | cons t rest ih =>
    rw [runTasks] at hu
    by_cases hstop : st.pipeline_stopped = true
    · rw [if_pos hstop] at hu; exact Or.inl hu
    · rw [if_neg hstop] at hu
      rcases ih (taskStep project res notify t st) hu with h | ⟨t2, ht2, heq, hsucc⟩
      · rcases taskStep_completed_mem project res notify t st u h with h2 | ⟨heq, hsucc⟩
        · exact Or.inl h2
        · exact Or.inr ⟨t, List.mem_cons_self t rest, heq, hsucc⟩
      · rw [taskStep_cfg] at hsucc
        exact Or.inr ⟨t2, List.mem_cons_of_mem t ht2, heq, hsucc⟩

theorem runTasks_failed_mem (project : String) (res : Config → Nat → TaskResult)
    (notify : NotifyEvent → Bool) (ts : List Nat) (st : PipeState) (u : Nat)
    (hu : u ∈ (runTasks project res notify ts st).failed) :
    u ∈ st.failed ∨ ∃ t, t ∈ ts ∧ u = t ∧
      ¬ (res st.cfg t).error_type.is_success = true ∧
      ¬ (res st.cfg t).error_type = ErrorType.on_hold := by
  induction ts generalizing st with
  | nil => exact Or.inl hu
  | cons t rest ih =>
    rw [runTasks] at hu
    by_cases hstop : st.pipeline_stopped = true
    · rw [if_pos hstop] at hu; exact Or.inl hu
    · rw [if_neg hstop] at hu
      rcases ih (taskStep project res notify t st) hu with h | ⟨t2, ht2, heq, hns, hnh⟩
      · rcases taskStep_failed_mem project res notify t st u h with h2 | ⟨heq, hns, hnh⟩
        · exact Or.inl h2
        · exact Or.inr ⟨t, List.mem_cons_self t rest, heq, hns, hnh⟩
      · rw [taskStep_cfg] at hns hnh
        exact Or.inr ⟨t2, List.mem_cons_of_mem t ht2, heq, hns, hnh⟩

/-- C5: for a session with a nonempty task queue, the exit code is 0 iff
the failed list is empty, which in turn holds iff every task's terminal
result is success or on-hold; and a task whose terminal result is on-hold
is recorded in neither the completed nor the failed list. -/
theorem c5_exit_code (project : String) (cfg0 : Config) (norec : Bool)
    (res : Config → Nat → TaskResult) (notify : NotifyEvent → Bool)
    (tasks : List Nat) (hne : ¬ tasks = []) :
    ((run_implement project cfg0 norec res notify tasks).exitCode = 0 ↔
      (run_implement project cfg0 norec res notify tasks).state.failed = []) ∧
    ((run_implement project cfg0 norec res notify tasks).state.failed = [] ↔
      ∀ t ∈ tasks,
        (res (run_implement_config cfg0 norec) t).error_type.is_success = true ∨
        (res (run_implement_config cfg0 norec) t).error_type = ErrorType.on_hold) ∧
    (∀ t, (res (run_implement_config cfg0 norec) t).error_type = ErrorType.on_hold →
      ¬ t ∈ (run_implement project cfg0 norec res notify tasks).state.completed ∧
      ¬ t ∈ (run_implement project cfg0 norec res notify tasks).state.failed) := by
  rw [run_implement_def project cfg0 norec res notify tasks hne]
  dsimp only []
  refine ⟨?_, ?_, ?_⟩
  · by_cases h : (runTasks project res notify tasks
        (sessionStart (run_implement_config cfg0 norec) notify)).failed = []
    · rw [if_pos h]; simp [h]
    · rw [if_neg h]; simp [h]
  · constructor
    · intro h
      exact runTasks_failed_empty_all_ok project res notify tasks
        (sessionStart (run_implement_config cfg0 norec) notify) rfl h
    · intro h
      exact runTasks_all_ok_failed project res notify tasks
        (sessionStart (run_implement_config cfg0 norec) notify) h
  · intro t hold
    constructor
    · intro hmem
      rcases runTasks_completed_mem project res notify tasks
          (sessionStart (run_implement_config cfg0 norec) notify) t hmem with h | ⟨t2, _, heq, hsucc⟩
      · cases h
      · rw [← heq] at hsucc
        have hsucc2 : (res (run_implement_config cfg0 norec) t).error_type.is_success = true :=
          hsucc
        rw [hold] at hsucc2
        simp [ErrorType.is_success] at hsucc2
    · intro hmem
      rcases runTasks_failed_mem project res notify tasks
          (sessionStart (run_implement_config cfg0 norec) notify) t hmem with h | ⟨t2, _, heq, hns, hnh⟩
      · cases h
      · rw [← heq] at hnh
        have hnh2 : ¬ (res (run_implement_config cfg0 norec) t).error_type = ErrorType.on_hold :=
          hnh
        exact hnh2 hold

theorem c5_exit_code_witness :
    ¬ ([1, 2] : List Nat) = [] ∧
    ((run_implement "p" defaultConfig false
        (fun _ _ => ⟨ErrorType.success, "ok", none, 1, 0⟩)
        (fun _ => true) [1, 2]).exitCode = 0 ↔
      (run_implement "p" defaultConfig false
        (fun _ _ => ⟨ErrorType.success, "ok", none, 1, 0⟩)
        (fun _ => true) [1, 2]).state.failed = []) :=
  ⟨by decide,
    (c5_exit_code "p" defaultConfig false
      (fun _ _ => ⟨ErrorType.success, "ok", none, 1, 0⟩)
      (fun _ => true) [1, 2] (by decide)).1⟩

/-- C8 counterexample: the configuration is NOT immutable after
construction — `run_implement`'s startup step with `no_recovery` set
mutates `recovery_enabled` in place on the process-wide config object
(`implement.py` lines 36-38), so an engine operation does mutate
process-wide configuration state. -/
theorem c8_config_mutated_counterexample :
    ¬ run_implement_config defaultConfig true = defaultConfig ∧
    (run_implement_config defaultConfig true).recovery_enabled = false ∧
    defaultConfig.recovery_enabled = true := by
  refine ⟨?_, rfl, rfl⟩
  decide

/-- C8 amended: the process-wide configuration is mutated exactly once, at
session startup (the `no_recovery` override); from then on no engine
operation changes it — the task loop threads the configuration value
unchanged, and the session ends with exactly the startup-adjusted
configuration. -/
theorem c8_config_immutable_after_startup (project : String) (cfg0 : Config)
    (norec : Bool) (res : Config → Nat → TaskResult) (notify : NotifyEvent → Bool)
    (tasks ts2 : List Nat) (st : PipeState) :
    (runTasks project res notify ts2 st).cfg = st.cfg ∧
    (run_implement project cfg0 norec res notify tasks).state.cfg =
      run_implement_config cfg0 norec := by
  refine ⟨runTasks_cfg project res notify ts2 st, ?_⟩
  by_cases h : tasks = []
  · rw [run_implement, if_pos h]
    rfl
  · rw [run_implement_def project cfg0 norec res notify tasks h]
    dsimp only []
    rw [runTasks_cfg]
    rfl

theorem taskStep_core (project : String) (res : Config → Nat → TaskResult)
    (n1 n2 : NotifyEvent → Bool) (t : Nat) (st1 st2 : PipeState)
    (h : coreOf st1 = coreOf st2) :
    coreOf (taskStep project res n1 t st1) = coreOf (taskStep project res n2 t st2) := by
  simp only [coreOf, Prod.mk.injEq] at h
  obtain ⟨hcfg, hcomp, hfail, hreas, hstop, hev⟩ := h
  unfold taskStep
  dsimp only []
  rw [hcfg]
  split_ifs <;>
    simp [coreOf, Prod.mk.injEq, hcfg, hcomp, hfail, hreas, hstop, hev]

theorem runTasks_core (project : String) (res : Config → Nat → TaskResult)
    (n1 n2 : NotifyEvent → Bool) (ts : List Nat) (st1 st2 : PipeState)
    (h : coreOf st1 = coreOf st2) :
    coreOf (runTasks project res n1 ts st1) = coreOf (runTasks project res n2 ts st2) := by
  induction ts generalizing st1 st2 with
  | nil => exact h
  | cons t rest ih =>
    have hstop : st1.pipeline_stopped = st2.pipeline_stopped := by
      simp only [coreOf, Prod.mk.injEq] at h
      exact h.2.2.2.2.1
    rw [runTasks, runTasks]
    by_cases hs : st1.pipeline_stopped = true
    · rw [if_pos hs, if_pos (hstop ▸ hs)]
      exact h
    · rw [if_neg hs, if_neg (by rw [← hstop]; exact hs)]
      exact ih _ _ (taskStep_core project res n1 n2 t st1 st2 h)

/-- C9: the notifier returns False without attempting a send when the
token or chat id is unconfigured, any exception of the underlying send
yields False, and the pipeline's completed/failed lists and exit code are
identical under any two notification oracles — notification success never
affects the pipeline outcome. -/
theorem c9_notifier_fire_and_forget :
    (∀ (n : Notifier) (message : String) (net : NetOutcome),
      n.is_configured = false → n.sendIfConfigured message net = (false, false)) ∧
    (∀ (n : Notifier) (message m : String),
      (n.sendIfConfigured message (NetOutcome.raised m)).1 = false) ∧
    (∀ (project : String) (cfg0 : Config) (norec : Bool)
      (res : Config → Nat → TaskResult) (n1 n2 : NotifyEvent → Bool)
      (tasks : List Nat),
      (run_implement project cfg0 norec res n1 tasks).exitCode =
        (run_implement project cfg0 norec res n2 tasks).exitCode ∧
      (run_implement project cfg0 norec res n1 tasks).state.completed =
        (run_implement project cfg0 norec res n2 tasks).state.completed ∧
      (run_implement project cfg0 norec res n1 tasks).state.failed =
        (run_implement project cfg0 norec res n2 tasks).state.failed) := by
  refine ⟨?_, ?_, ?_⟩
  · intro n message net h
    unfold Notifier.sendIfConfigured
    rw [if_neg (by rw [h]; exact Bool.false_ne_true)]
  · intro n message m
    unfold Notifier.sendIfConfigured
    by_cases h : n.is_configured = true
    · rw [if_pos h]
      rfl
    · rw [if_neg h]
  · intro project cfg0 norec res n1 n2 tasks
    by_cases h : tasks = []
    · rw [run_implement, run_implement, if_pos h, if_pos h]
      exact ⟨rfl, rfl, rfl⟩
    · rw [run_implement_def project cfg0 norec res n1 tasks h,
          run_implement_def project cfg0 norec res n2 tasks h]
      dsimp only []
      have hcore := runTasks_core project res n1 n2 tasks
        (sessionStart (run_implement_config cfg0 norec) n1)
        (sessionStart (run_implement_config cfg0 norec) n2) rfl
      simp only [coreOf, Prod.mk.injEq] at hcore
      obtain ⟨-, hcomp, hfail, -, -, -⟩ := hcore
      exact ⟨by rw [hfail], hcomp, hfail⟩

theorem c9_notifier_fire_and_forget_witness :
    Notifier.sendIfConfigured ⟨none, some "chat"⟩ "hello" (NetOutcome.responded true) =
      (false, false) :=
  c9_notifier_fire_and_forget.1 ⟨none, some "chat"⟩ "hello"
    (NetOutcome.responded true) rfl

/-- C10: `cleanup_working_dir` is total: it returns the empty list when
the directory is not a git repository, returns the modified-plus-untracked
list computed before any reset is performed, and returns that same
precomputed list even when the underlying git checkout or git clean
command raises (the errors are swallowed). -/
theorem c10_cleanup_swallows_git_errors (r : RepoState) :
    cleanup_working_dir none = [] ∧
    cleanup_working_dir (some r) =
      (get_files_to_clean (some r)).1 ++ (get_files_to_clean (some r)).2 ∧
    cleanup_working_dir (some r) =
      cleanup_working_dir (some { r with checkout_raises := false, clean_raises := false }) := by
  refine ⟨rfl, rfl, ?_⟩
  simp [cleanup_working_dir, get_files_to_clean, get_repo]
